import Mathlib

/-!
Shallow embedding of the Rockchip RK30XX watchdog driver
(src/rk30xx_wdog.c) and verification of its specification.

Register accesses, lock operations and the in/out error parameter of the
watchdog event handler are made explicit: each driver entry point is
modelled as a pure function returning the ordered trace of lock events and
32-bit register writes it performs, together with its visible result.
Machine integers are modelled as Nat with explicit truncation modulo 2^64
where the C code computes in uint64_t.
-/

set_option maxHeartbeats 2000000

namespace Rk30Wdog

/-- One row of the interval table: struct rk30_wd_interval, a millisecond
threshold paired with the hardware encoded timeout-range value. -/
structure RkWdInterval where
  milliseconds : Nat
  value : Nat
deriving DecidableEq, Repr

/-- The constant table wd_intervals from the source, including the final
sentinel row with milliseconds == 0. -/
def wd_intervals : List RkWdInterval :=
  [⟨2730, 0⟩, ⟨5460, 1⟩, ⟨10920, 2⟩, ⟨21840, 3⟩,
   ⟨43680, 4⟩, ⟨87360, 5⟩, ⟨174720, 6⟩, ⟨349440, 7⟩,
   ⟨698880, 8⟩, ⟨1397760, 9⟩, ⟨2795520, 10⟩, ⟨5591040, 11⟩,
   ⟨11182080, 12⟩, ⟨22364160, 13⟩, ⟨44728320, 14⟩, ⟨89456640, 15⟩,
   ⟨0, 0⟩]

/-- Register offsets and control bits from the source header section. -/
def WDOG_CTRL : Nat := 0x00

def WDOG_CTRL_EN : Nat := 1 <<< 0

def WDOG_CTRL_RSP_MODE : Nat := 1 <<< 1

def WDOG_CTRL_RST_PULSE : Nat := 4 <<< 2

def WDOG_TORR : Nat := 0x04

def WDOG_TORR_INTVL_SHIFT : Nat := 0

def WDOG_CRR : Nat := 0x0c

/-- Interval-selector mask WD_INTERVAL from the FreeBSD header
sys/watchdog.h (an external interface constant, not part of this
repository): the low byte of the watchdog command holds the power-of-two
nanosecond exponent. -/
def WD_INTERVAL : Nat := 0xff

/-- FreeBSD errno value ENXIO, returned by attach on failure. -/
def ENXIO : Nat := 6

/-- Observable events of a driver entry point, in execution order:
mutex acquire/release and 32-bit register writes (offset, value). -/
inductive Ev where
  | lock
  | unlock
  | write (off : Nat) (val : Nat)
deriving DecidableEq, Repr

/-- The table scan of rk30_wd_watchdog_fn, translated from the loop
`while (wd_intervals[i].milliseconds && (ms > wd_intervals[i].milliseconds)) i++;`
followed by the check `if (wd_intervals[i].milliseconds)`: advance past
entries that are non-sentinel and strictly below the request, then return
the stopping entry when it is non-sentinel and none otherwise. -/
def scanIntervals : List RkWdInterval → Nat → Option RkWdInterval
  | [], _ => none
  | e :: rest, ms =>
      if e.milliseconds ≠ 0 ∧ ms > e.milliseconds then scanIntervals rest ms
      else if e.milliseconds ≠ 0 then some e
      else none

/-- Number of table entries the scan examines (loop iterations plus the
final stopping entry). -/
def scanCount : List RkWdInterval → Nat → Nat
  | [], _ => 0
  | e :: rest, ms =>
      if e.milliseconds ≠ 0 ∧ ms > e.milliseconds then 1 + scanCount rest ms
      else 1

/-- The millisecond value derived from a watchdog command:
`ms = ((uint64_t)1 << (cmd & WD_INTERVAL)) / 1000000`, with the uint64_t
shift modelled as truncation modulo 2^64. -/
def derivedMs (cmd : Nat) : Nat :=
  ((1 <<< (cmd &&& WD_INTERVAL)) % 2 ^ 64) / 1000000

/-- rk30_wd_watchdog_fn: the configure entry point. Takes the raw command
and the incoming value of the in/out error parameter (the watchdog
framework presets it: 0 for a disable request, EOPNOTSUPP otherwise, and
only a handler that arms successfully clears it to 0). Returns the event
trace and the outgoing error value. -/
def rk30_wd_watchdog_fn (cmd errIn : Nat) : List Ev × Nat :=
  let c := cmd &&& WD_INTERVAL
  if 0 < c then
    let ms := derivedMs c
    match scanIntervals wd_intervals ms with
    | some e =>
        ([Ev.lock,
          Ev.write WDOG_TORR (e.value <<< WDOG_TORR_INTVL_SHIFT),
          Ev.write WDOG_CTRL
            (WDOG_CTRL_EN ||| WDOG_CTRL_RSP_MODE ||| WDOG_CTRL_RST_PULSE),
          Ev.write WDOG_CRR 0x76,
          Ev.unlock], 0)
    | none =>
        ([Ev.lock, Ev.unlock, Ev.write WDOG_CTRL 0xa], errIn)
  else
    ([Ev.lock, Ev.write WDOG_CTRL 0xa, Ev.unlock], errIn)

/-- rk30_wd_attach: the bind entry point. State is whether the global
softc pointer rk30_wd_sc is already set; allocOk is whether the memory
resource allocation succeeds. Returns (new bound state, errno, trace of
register accesses). Attach performs no register access on any path. -/
def rk30_wd_attach (bound allocOk : Bool) : Bool × Nat × List Ev :=
  if bound then (bound, ENXIO, [])
  else if allocOk = false then (bound, ENXIO, [])
  else (true, 0, [])

/-- Outcome of rk30_wd_watchdog_reset: either the function returns
normally (having only logged an error) or it enters the terminal infinite
busy-wait; each carries the register-write/lock trace performed first,
and the returning case records that the initialization error was logged. -/
inductive ResetOutcome where
  | returned (logged : Bool) (trace : List Ev)
  | hangs (trace : List Ev)
deriving DecidableEq, Repr

/-- Event trace of a reset outcome. -/
def resetTrace : ResetOutcome → List Ev
  | .returned _ t => t
  | .hangs t => t

/-- rk30_wd_watchdog_reset: the forceReset entry point. bound is whether
rk30_wd_sc is non-NULL. When unbound it prints the initialization error
and returns; when bound it writes wd_intervals[0].value to TORR and the
enable pattern to CTRL, then loops forever. -/
def rk30_wd_watchdog_reset (bound : Bool) : ResetOutcome :=
  if bound = false then
    .returned true []
  else
    .hangs [Ev.write WDOG_TORR
              ((wd_intervals.headD ⟨0, 0⟩).value <<< WDOG_TORR_INTVL_SHIFT),
            Ev.write WDOG_CTRL
              (WDOG_CTRL_EN ||| WDOG_CTRL_RSP_MODE ||| WDOG_CTRL_RST_PULSE)]

/-- The resolution contract as the spec words it: the first
non-sentinel table entry, in order, whose threshold is at least the
requested milliseconds. -/
def resolveSpec (ms : Nat) : Option RkWdInterval :=
  (wd_intervals.filter fun e => decide (e.milliseconds ≠ 0)).find?
    fun e => decide (ms ≤ e.milliseconds)

/-- Checks that every register write in a trace happens while the mutex
is held, threading the current lock state. -/
def writesLocked : Bool → List Ev → Bool
  | _, [] => true
  | _, Ev.lock :: r => writesLocked true r
  | _, Ev.unlock :: r => writesLocked false r
  | locked, Ev.write _ _ :: r => locked && writesLocked locked r

/-- True when the event is a write to the given register offset. -/
def touchesOff (off : Nat) : Ev → Bool
  | .write o _ => o = off
  | _ => false

/-- True when the event is a mutex operation. -/
def isLockEv : Ev → Bool
  | .lock => true
  | .unlock => true
  | .write _ _ => false

/-- Closed form of the table scan on the concrete table: the request is
bucketed at the first threshold that is not strictly below it. -/
theorem scan_eq_cases (ms : Nat) :
    scanIntervals wd_intervals ms =
      if ms ≤ 2730 then some ⟨2730, 0⟩
      else if ms ≤ 5460 then some ⟨5460, 1⟩
      else if ms ≤ 10920 then some ⟨10920, 2⟩
      else if ms ≤ 21840 then some ⟨21840, 3⟩
      else if ms ≤ 43680 then some ⟨43680, 4⟩
      else if ms ≤ 87360 then some ⟨87360, 5⟩
      else if ms ≤ 174720 then some ⟨174720, 6⟩
      else if ms ≤ 349440 then some ⟨349440, 7⟩
      else if ms ≤ 698880 then some ⟨698880, 8⟩
      else if ms ≤ 1397760 then some ⟨1397760, 9⟩
      else if ms ≤ 2795520 then some ⟨2795520, 10⟩
      else if ms ≤ 5591040 then some ⟨5591040, 11⟩
      else if ms ≤ 11182080 then some ⟨11182080, 12⟩
      else if ms ≤ 22364160 then some ⟨22364160, 13⟩
      else if ms ≤ 44728320 then some ⟨44728320, 14⟩
      else if ms ≤ 89456640 then some ⟨89456640, 15⟩
      else none := by
  have hstep : ∀ (t v : Nat) (rest : List RkWdInterval), t ≠ 0 →
      scanIntervals (⟨t, v⟩ :: rest) ms =
        if ms ≤ t then some ⟨t, v⟩ else scanIntervals rest ms := by
    intro t v rest ht
    simp only [scanIntervals]
    dsimp only
    split_ifs <;> first | rfl | omega
  simp only [wd_intervals]
  rw [hstep 2730 0 _ (by omega), hstep 5460 1 _ (by omega),
    hstep 10920 2 _ (by omega), hstep 21840 3 _ (by omega),
    hstep 43680 4 _ (by omega), hstep 87360 5 _ (by omega),
    hstep 174720 6 _ (by omega), hstep 349440 7 _ (by omega),
    hstep 698880 8 _ (by omega), hstep 1397760 9 _ (by omega),
    hstep 2795520 10 _ (by omega), hstep 5591040 11 _ (by omega),
    hstep 11182080 12 _ (by omega), hstep 22364160 13 _ (by omega),
    hstep 44728320 14 _ (by omega), hstep 89456640 15 _ (by omega)]
  have hsent : scanIntervals [⟨0, 0⟩] ms = none := by
    simp [scanIntervals]
  rw [hsent]

/-- The sentinel-free part of the table, as the filter in resolveSpec
computes it. -/
theorem filter_wd_intervals :
    (wd_intervals.filter fun e => decide (e.milliseconds ≠ 0)) =
      [⟨2730, 0⟩, ⟨5460, 1⟩, ⟨10920, 2⟩, ⟨21840, 3⟩,
       ⟨43680, 4⟩, ⟨87360, 5⟩, ⟨174720, 6⟩, ⟨349440, 7⟩,
       ⟨698880, 8⟩, ⟨1397760, 9⟩, ⟨2795520, 10⟩, ⟨5591040, 11⟩,
       ⟨11182080, 12⟩, ⟨22364160, 13⟩, ⟨44728320, 14⟩, ⟨89456640, 15⟩] := by
  rfl

/-- Closed form of the spec-level resolution: identical case split. -/
theorem resolveSpec_eq_cases (ms : Nat) :
    resolveSpec ms =
      if ms ≤ 2730 then some ⟨2730, 0⟩
      else if ms ≤ 5460 then some ⟨5460, 1⟩
      else if ms ≤ 10920 then some ⟨10920, 2⟩
      else if ms ≤ 21840 then some ⟨21840, 3⟩
      else if ms ≤ 43680 then some ⟨43680, 4⟩
      else if ms ≤ 87360 then some ⟨87360, 5⟩
      else if ms ≤ 174720 then some ⟨174720, 6⟩
      else if ms ≤ 349440 then some ⟨349440, 7⟩
      else if ms ≤ 698880 then some ⟨698880, 8⟩
      else if ms ≤ 1397760 then some ⟨1397760, 9⟩
      else if ms ≤ 2795520 then some ⟨2795520, 10⟩
      else if ms ≤ 5591040 then some ⟨5591040, 11⟩
      else if ms ≤ 11182080 then some ⟨11182080, 12⟩
      else if ms ≤ 22364160 then some ⟨22364160, 13⟩
      else if ms ≤ 44728320 then some ⟨44728320, 14⟩
      else if ms ≤ 89456640 then some ⟨89456640, 15⟩
      else none := by
  have hfstep : ∀ (t v : Nat) (rest : List RkWdInterval),
      List.find? (fun e => decide (ms ≤ e.milliseconds)) (⟨t, v⟩ :: rest) =
        if ms ≤ t then some ⟨t, v⟩
        else List.find? (fun e => decide (ms ≤ e.milliseconds)) rest := by
    intro t v rest
    by_cases h : ms ≤ t
    · rw [List.find?_cons_of_pos _ (by simpa using h), if_pos h]
    · rw [List.find?_cons_of_neg _ (by simpa using h), if_neg h]
  rw [resolveSpec, filter_wd_intervals]
  rw [hfstep 2730 0, hfstep 5460 1, hfstep 10920 2, hfstep 21840 3,
    hfstep 43680 4, hfstep 87360 5, hfstep 174720 6, hfstep 349440 7,
    hfstep 698880 8, hfstep 1397760 9, hfstep 2795520 10, hfstep 5591040 11,
    hfstep 11182080 12, hfstep 22364160 13, hfstep 44728320 14,
    hfstep 89456640 15]
  rw [List.find?_nil]

/-- The scan misses the table exactly above the largest threshold. -/
theorem scan_none_of_gt (ms : Nat) (h : 89456640 < ms) :
    scanIntervals wd_intervals ms = none := by
  rw [scan_eq_cases,
    if_neg (show ¬ ms ≤ 2730 by omega),
    if_neg (show ¬ ms ≤ 5460 by omega),
    if_neg (show ¬ ms ≤ 10920 by omega),
    if_neg (show ¬ ms ≤ 21840 by omega),
    if_neg (show ¬ ms ≤ 43680 by omega),
    if_neg (show ¬ ms ≤ 87360 by omega),
    if_neg (show ¬ ms ≤ 174720 by omega),
    if_neg (show ¬ ms ≤ 349440 by omega),
    if_neg (show ¬ ms ≤ 698880 by omega),
    if_neg (show ¬ ms ≤ 1397760 by omega),
    if_neg (show ¬ ms ≤ 2795520 by omega),
    if_neg (show ¬ ms ≤ 5591040 by omega),
    if_neg (show ¬ ms ≤ 11182080 by omega),
    if_neg (show ¬ ms ≤ 22364160 by omega),
    if_neg (show ¬ ms ≤ 44728320 by omega),
    if_neg (show ¬ ms ≤ 89456640 by omega)]

/-- The scan hits the table at or below the largest threshold. -/
theorem scan_isSome_of_le (ms : Nat) (h : ms ≤ 89456640) :
    (scanIntervals wd_intervals ms).isSome = true := by
  rw [scan_eq_cases]
  by_cases h1 : ms ≤ 2730
  · rw [if_pos h1]; rfl
  rw [if_neg h1]
  by_cases h2 : ms ≤ 5460
  · rw [if_pos h2]; rfl
  rw [if_neg h2]
  by_cases h3 : ms ≤ 10920
  · rw [if_pos h3]; rfl
  rw [if_neg h3]
  by_cases h4 : ms ≤ 21840
  · rw [if_pos h4]; rfl
  rw [if_neg h4]
  by_cases h5 : ms ≤ 43680
  · rw [if_pos h5]; rfl
  rw [if_neg h5]
  by_cases h6 : ms ≤ 87360
  · rw [if_pos h6]; rfl
  rw [if_neg h6]
  by_cases h7 : ms ≤ 174720
  · rw [if_pos h7]; rfl
  rw [if_neg h7]
  by_cases h8 : ms ≤ 349440
  · rw [if_pos h8]; rfl
  rw [if_neg h8]
  by_cases h9 : ms ≤ 698880
  · rw [if_pos h9]; rfl
  rw [if_neg h9]
  by_cases h10 : ms ≤ 1397760
  · rw [if_pos h10]; rfl
  rw [if_neg h10]
  by_cases h11 : ms ≤ 2795520
  · rw [if_pos h11]; rfl
  rw [if_neg h11]
  by_cases h12 : ms ≤ 5591040
  · rw [if_pos h12]; rfl
  rw [if_neg h12]
  by_cases h13 : ms ≤ 11182080
  · rw [if_pos h13]; rfl
  rw [if_neg h13]
  by_cases h14 : ms ≤ 22364160
  · rw [if_pos h14]; rfl
  rw [if_neg h14]
  by_cases h15 : ms ≤ 44728320
  · rw [if_pos h15]; rfl
  rw [if_neg h15]
  rw [if_pos h]; rfl

/-- Masking with WD_INTERVAL is idempotent. -/
theorem and_mask_idem (x m : Nat) : x &&& m &&& m = x &&& m := by
  rw [Nat.and_assoc, Nat.and_self]

/-- The millisecond value computed inside the handler from the
already-masked command equals derivedMs of the raw command. -/
theorem derivedMs_mask (cmd : Nat) :
    derivedMs (cmd &&& WD_INTERVAL) = derivedMs cmd := by
  unfold derivedMs
  rw [and_mask_idem]

/-- The count of examined entries never exceeds the table length. -/
theorem scanCount_le_length (l : List RkWdInterval) (ms : Nat) :
    scanCount l ms ≤ l.length := by
  induction l with
  | nil => simp [scanCount]
  | cons e rest ih =>
      simp only [scanCount, List.length_cons]
      split_ifs <;> omega

/-- C1: the interval-resolution scan in configure returns the first table
entry, in ascending threshold order, whose threshold_ms is at least the
requested ms (the spec-level resolveSpec); ms = 0 resolves to the entry at
index 0 (encoded value 0); and an ms strictly between two adjacent real
thresholds resolves to the higher of the two. -/
theorem scan_returns_first_covering_entry (ms : Nat) :
    scanIntervals wd_intervals ms = resolveSpec ms ∧
    scanIntervals wd_intervals 0 = some ⟨2730, 0⟩ ∧
    ∀ p ∈ wd_intervals.zip wd_intervals.tail,
      (p.2).milliseconds ≠ 0 → (p.1).milliseconds < ms →
      ms < (p.2).milliseconds → scanIntervals wd_intervals ms = some p.2 := by
  refine ⟨?_, ?_, ?_⟩
  · rw [scan_eq_cases, resolveSpec_eq_cases]
  · decide
  · intro p hp hb0 h1 h2
    fin_cases hp
    · dsimp only at h1 h2
      rw [scan_eq_cases,
        if_neg (show ¬ ms ≤ 2730 by omega),
        if_pos (show ms ≤ 5460 by omega)]
    · dsimp only at h1 h2
      rw [scan_eq_cases,
        if_neg (show ¬ ms ≤ 2730 by omega),
        if_neg (show ¬ ms ≤ 5460 by omega),
        if_pos (show ms ≤ 10920 by omega)]
    · dsimp only at h1 h2
      rw [scan_eq_cases,
        if_neg (show ¬ ms ≤ 2730 by omega),
        if_neg (show ¬ ms ≤ 5460 by omega),
        if_neg (show ¬ ms ≤ 10920 by omega),
        if_pos (show ms ≤ 21840 by omega)]
    · dsimp only at h1 h2
      rw [scan_eq_cases,
        if_neg (show ¬ ms ≤ 2730 by omega),
        if_neg (show ¬ ms ≤ 5460 by omega),
        if_neg (show ¬ ms ≤ 10920 by omega),
        if_neg (show ¬ ms ≤ 21840 by omega),
        if_pos (show ms ≤ 43680 by omega)]
    · dsimp only at h1 h2
      rw [scan_eq_cases,
        if_neg (show ¬ ms ≤ 2730 by omega),
        if_neg (show ¬ ms ≤ 5460 by omega),
        if_neg (show ¬ ms ≤ 10920 by omega),
        if_neg (show ¬ ms ≤ 21840 by omega),
        if_neg (show ¬ ms ≤ 43680 by omega),
        if_pos (show ms ≤ 87360 by omega)]
    · dsimp only at h1 h2
      rw [scan_eq_cases,
        if_neg (show ¬ ms ≤ 2730 by omega),
        if_neg (show ¬ ms ≤ 5460 by omega),
        if_neg (show ¬ ms ≤ 10920 by omega),
        if_neg (show ¬ ms ≤ 21840 by omega),
        if_neg (show ¬ ms ≤ 43680 by omega),
        if_neg (show ¬ ms ≤ 87360 by omega),
        if_pos (show ms ≤ 174720 by omega)]
    · dsimp only at h1 h2
      rw [scan_eq_cases,
        if_neg (show ¬ ms ≤ 2730 by omega),
        if_neg (show ¬ ms ≤ 5460 by omega),
        if_neg (show ¬ ms ≤ 10920 by omega),
        if_neg (show ¬ ms ≤ 21840 by omega),
        if_neg (show ¬ ms ≤ 43680 by omega),
        if_neg (show ¬ ms ≤ 87360 by omega),
        if_neg (show ¬ ms ≤ 174720 by omega),
        if_pos (show ms ≤ 349440 by omega)]
    · dsimp only at h1 h2
      rw [scan_eq_cases,
        if_neg (show ¬ ms ≤ 2730 by omega),
        if_neg (show ¬ ms ≤ 5460 by omega),
        if_neg (show ¬ ms ≤ 10920 by omega),
        if_neg (show ¬ ms ≤ 21840 by omega),
        if_neg (show ¬ ms ≤ 43680 by omega),
        if_neg (show ¬ ms ≤ 87360 by omega),
        if_neg (show ¬ ms ≤ 174720 by omega),
        if_neg (show ¬ ms ≤ 349440 by omega),
        if_pos (show ms ≤ 698880 by omega)]
    · dsimp only at h1 h2
      rw [scan_eq_cases,
        if_neg (show ¬ ms ≤ 2730 by omega),
        if_neg (show ¬ ms ≤ 5460 by omega),
        if_neg (show ¬ ms ≤ 10920 by omega),
        if_neg (show ¬ ms ≤ 21840 by omega),
        if_neg (show ¬ ms ≤ 43680 by omega),
        if_neg (show ¬ ms ≤ 87360 by omega),
        if_neg (show ¬ ms ≤ 174720 by omega),
        if_neg (show ¬ ms ≤ 349440 by omega),
        if_neg (show ¬ ms ≤ 698880 by omega),
        if_pos (show ms ≤ 1397760 by omega)]
    · dsimp only at h1 h2
      rw [scan_eq_cases,
        if_neg (show ¬ ms ≤ 2730 by omega),
        if_neg (show ¬ ms ≤ 5460 by omega),
        if_neg (show ¬ ms ≤ 10920 by omega),
        if_neg (show ¬ ms ≤ 21840 by omega),
        if_neg (show ¬ ms ≤ 43680 by omega),
        if_neg (show ¬ ms ≤ 87360 by omega),
        if_neg (show ¬ ms ≤ 174720 by omega),
        if_neg (show ¬ ms ≤ 349440 by omega),
        if_neg (show ¬ ms ≤ 698880 by omega),
        if_neg (show ¬ ms ≤ 1397760 by omega),
        if_pos (show ms ≤ 2795520 by omega)]
    · dsimp only at h1 h2
      rw [scan_eq_cases,
        if_neg (show ¬ ms ≤ 2730 by omega),
        if_neg (show ¬ ms ≤ 5460 by omega),
        if_neg (show ¬ ms ≤ 10920 by omega),
        if_neg (show ¬ ms ≤ 21840 by omega),
        if_neg (show ¬ ms ≤ 43680 by omega),
        if_neg (show ¬ ms ≤ 87360 by omega),
        if_neg (show ¬ ms ≤ 174720 by omega),
        if_neg (show ¬ ms ≤ 349440 by omega),
        if_neg (show ¬ ms ≤ 698880 by omega),
        if_neg (show ¬ ms ≤ 1397760 by omega),
        if_neg (show ¬ ms ≤ 2795520 by omega),
        if_pos (show ms ≤ 5591040 by omega)]
    · dsimp only at h1 h2
      rw [scan_eq_cases,
        if_neg (show ¬ ms ≤ 2730 by omega),
        if_neg (show ¬ ms ≤ 5460 by omega),
        if_neg (show ¬ ms ≤ 10920 by omega),
        if_neg (show ¬ ms ≤ 21840 by omega),
        if_neg (show ¬ ms ≤ 43680 by omega),
        if_neg (show ¬ ms ≤ 87360 by omega),
        if_neg (show ¬ ms ≤ 174720 by omega),
        if_neg (show ¬ ms ≤ 349440 by omega),
        if_neg (show ¬ ms ≤ 698880 by omega),
        if_neg (show ¬ ms ≤ 1397760 by omega),
        if_neg (show ¬ ms ≤ 2795520 by omega),
        if_neg (show ¬ ms ≤ 5591040 by omega),
        if_pos (show ms ≤ 11182080 by omega)]
    · dsimp only at h1 h2
      rw [scan_eq_cases,
        if_neg (show ¬ ms ≤ 2730 by omega),
        if_neg (show ¬ ms ≤ 5460 by omega),
        if_neg (show ¬ ms ≤ 10920 by omega),
        if_neg (show ¬ ms ≤ 21840 by omega),
        if_neg (show ¬ ms ≤ 43680 by omega),
        if_neg (show ¬ ms ≤ 87360 by omega),
        if_neg (show ¬ ms ≤ 174720 by omega),
        if_neg (show ¬ ms ≤ 349440 by omega),
        if_neg (show ¬ ms ≤ 698880 by omega),
        if_neg (show ¬ ms ≤ 1397760 by omega),
        if_neg (show ¬ ms ≤ 2795520 by omega),
        if_neg (show ¬ ms ≤ 5591040 by omega),
        if_neg (show ¬ ms ≤ 11182080 by omega),
        if_pos (show ms ≤ 22364160 by omega)]
    · dsimp only at h1 h2
      rw [scan_eq_cases,
        if_neg (show ¬ ms ≤ 2730 by omega),
        if_neg (show ¬ ms ≤ 5460 by omega),
        if_neg (show ¬ ms ≤ 10920 by omega),
        if_neg (show ¬ ms ≤ 21840 by omega),
        if_neg (show ¬ ms ≤ 43680 by omega),
        if_neg (show ¬ ms ≤ 87360 by omega),
        if_neg (show ¬ ms ≤ 174720 by omega),
        if_neg (show ¬ ms ≤ 349440 by omega),
        if_neg (show ¬ ms ≤ 698880 by omega),
        if_neg (show ¬ ms ≤ 1397760 by omega),
        if_neg (show ¬ ms ≤ 2795520 by omega),
        if_neg (show ¬ ms ≤ 5591040 by omega),
        if_neg (show ¬ ms ≤ 11182080 by omega),
        if_neg (show ¬ ms ≤ 22364160 by omega),
        if_pos (show ms ≤ 44728320 by omega)]
    · dsimp only at h1 h2
      rw [scan_eq_cases,
        if_neg (show ¬ ms ≤ 2730 by omega),
        if_neg (show ¬ ms ≤ 5460 by omega),
        if_neg (show ¬ ms ≤ 10920 by omega),
        if_neg (show ¬ ms ≤ 21840 by omega),
        if_neg (show ¬ ms ≤ 43680 by omega),
        if_neg (show ¬ ms ≤ 87360 by omega),
        if_neg (show ¬ ms ≤ 174720 by omega),
        if_neg (show ¬ ms ≤ 349440 by omega),
        if_neg (show ¬ ms ≤ 698880 by omega),
        if_neg (show ¬ ms ≤ 1397760 by omega),
        if_neg (show ¬ ms ≤ 2795520 by omega),
        if_neg (show ¬ ms ≤ 5591040 by omega),
        if_neg (show ¬ ms ≤ 11182080 by omega),
        if_neg (show ¬ ms ≤ 22364160 by omega),
        if_neg (show ¬ ms ≤ 44728320 by omega),
        if_pos (show ms ≤ 89456640 by omega)]
    · exact absurd rfl hb0

/-- Witness for C1: ms = 3000 lies strictly between adjacent thresholds
2730 and 5460 and resolves to the higher bucket. -/
theorem scan_returns_first_covering_entry_witness :
    scanIntervals wd_intervals 3000 = some ⟨5460, 1⟩ :=
  (scan_returns_first_covering_entry 3000).2.2 (⟨2730, 0⟩, ⟨5460, 1⟩)
    (by decide) (by decide) (by decide) (by decide)

/-- C6: the resolution returns none exactly when the request exceeds the
largest threshold 89456640; every request at or below it resolves to some
entry, and 89456641 in particular resolves to none. -/
theorem resolve_none_iff_exceeds_max (ms : Nat) :
    (scanIntervals wd_intervals ms = none ↔ 89456640 < ms) ∧
    (ms ≤ 89456640 → (scanIntervals wd_intervals ms).isSome = true) ∧
    scanIntervals wd_intervals 89456641 = none := by
  have hiff : scanIntervals wd_intervals ms = none ↔ 89456640 < ms := by
    constructor
    · intro h0
      by_contra hlt
      have hs := scan_isSome_of_le ms (by omega)
      rw [h0] at hs
      exact Bool.noConfusion hs
    · exact scan_none_of_gt ms
  refine ⟨hiff, ?_, ?_⟩
  · intro h
    exact scan_isSome_of_le ms h
  · exact scan_none_of_gt _ (by omega)

/-- Witness for C6: 89456641 resolves to none and 2730 resolves to some
entry. -/
theorem resolve_none_iff_exceeds_max_witness :
    scanIntervals wd_intervals 89456641 = none ∧
    (scanIntervals wd_intervals 2730).isSome = true :=
  ⟨(resolve_none_iff_exceeds_max 89456641).1.mpr (by omega),
   (resolve_none_iff_exceeds_max 2730).2.1 (by omega)⟩

/-- C10: the table scan terminates for every request: the final table
entry is the sentinel with milliseconds = 0, the table has 17 entries, and
the scan examines at most 17 of them. -/
theorem scan_terminates_bounded (ms : Nat) :
    wd_intervals.getLast?.map RkWdInterval.milliseconds = some 0 ∧
    wd_intervals.length = 17 ∧
    scanCount wd_intervals ms ≤ 17 := by
  refine ⟨by decide, rfl, ?_⟩
  have h1 := scanCount_le_length wd_intervals ms
  have h2 : wd_intervals.length = 17 := rfl
  omega

/-- C2: whenever the masked interval field is non-zero and the derived ms
is covered by the table entry e, configure performs exactly the three
register writes TORR := e.value, CTRL := enable pattern, CRR := 0x76, in
that order, under the lock, and clears the error; moreover the exact
boundary ms = 10920 resolves to encoded value 2. -/
theorem configure_arms_in_order (cmd errIn : Nat) (e : RkWdInterval)
    (hm : cmd &&& WD_INTERVAL ≠ 0)
    (hr : scanIntervals wd_intervals (derivedMs cmd) = some e) :
    rk30_wd_watchdog_fn cmd errIn =
      ([Ev.lock,
        Ev.write WDOG_TORR (e.value <<< WDOG_TORR_INTVL_SHIFT),
        Ev.write WDOG_CTRL
          (WDOG_CTRL_EN ||| WDOG_CTRL_RSP_MODE ||| WDOG_CTRL_RST_PULSE),
        Ev.write WDOG_CRR 0x76,
        Ev.unlock], 0) ∧
    scanIntervals wd_intervals 10920 = some ⟨10920, 2⟩ := by
  constructor
  · simp only [rk30_wd_watchdog_fn]
    rw [if_pos (Nat.pos_of_ne_zero hm), derivedMs_mask, hr]
  · decide

/-- Witness for C2: command 30 derives ms = 1073, covered by the first
entry, and arms with the three ordered writes. -/
theorem configure_arms_in_order_witness :
    rk30_wd_watchdog_fn 30 45 =
      ([Ev.lock, Ev.write WDOG_TORR 0, Ev.write WDOG_CTRL 0x13,
        Ev.write WDOG_CRR 0x76, Ev.unlock], 0) :=
  (configure_arms_in_order 30 45 ⟨2730, 0⟩ (by decide) (by decide)).1

/-- C3: whenever the masked interval field is non-zero and the derived ms
exceeds the largest threshold, configure writes the disable pattern 0xa to
CTRL and leaves the error parameter at its incoming value (the framework
preset EOPNOTSUPP, so the caller sees the cannot-arm failure). -/
theorem configure_cannot_arm (cmd errIn : Nat)
    (hm : cmd &&& WD_INTERVAL ≠ 0)
    (hms : 89456640 < derivedMs cmd) :
    rk30_wd_watchdog_fn cmd errIn =
      ([Ev.lock, Ev.unlock, Ev.write WDOG_CTRL 0xa], errIn) := by
  simp only [rk30_wd_watchdog_fn]
  rw [if_pos (Nat.pos_of_ne_zero hm), derivedMs_mask, scan_none_of_gt _ hms]

/-- Witness for C3: command 47 derives ms = 140737488, beyond the table. -/
theorem configure_cannot_arm_witness :
    rk30_wd_watchdog_fn 47 45 =
      ([Ev.lock, Ev.unlock, Ev.write WDOG_CTRL 0xa], 45) :=
  configure_cannot_arm 47 45 (by decide) (by decide)

/-- C4 counterexample: for command 47 (derived ms beyond the table) the
handler releases the mutex and only then issues the CTRL disable write, so
the write is not performed under the lock, refuting the claim that every
path keeps the lock across all register writes. -/
theorem configure_write_after_unlock_cex :
    rk30_wd_watchdog_fn 47 45 =
      ([Ev.lock, Ev.unlock, Ev.write WDOG_CTRL 0xa], 45) ∧
    writesLocked false (rk30_wd_watchdog_fn 47 45).1 = false := by
  decide

/-- C4 amended: on the disarm path and on every successfully-arming path
the mutex is held across all register writes of the invocation; only the
resolution-failure path issues its final CTRL disable write after
releasing the mutex. -/
theorem configure_lock_covers_writes (cmd errIn : Nat)
    (h : cmd &&& WD_INTERVAL = 0 ∨
      (scanIntervals wd_intervals (derivedMs cmd)).isSome = true) :
    writesLocked false (rk30_wd_watchdog_fn cmd errIn).1 = true := by
  by_cases hc : 0 < cmd &&& WD_INTERVAL
  · rcases h with h | h
    · omega
    · rcases Option.isSome_iff_exists.mp h with ⟨e, he⟩
      simp only [rk30_wd_watchdog_fn]
      rw [if_pos hc, derivedMs_mask, he]
      rfl
  · simp only [rk30_wd_watchdog_fn]
    rw [if_neg hc]
    rfl

/-- Witness for the amended C4: the disarm invocation keeps its single
write under the lock. -/
theorem configure_lock_covers_writes_witness :
    writesLocked false (rk30_wd_watchdog_fn 0 0).1 = true :=
  configure_lock_covers_writes 0 0 (Or.inl (by decide))

/-- C5: whenever the masked interval field is zero, configure performs
exactly one register write, the disable pattern 0xa to CTRL, under the
lock, and leaves the error parameter unchanged (the framework presets 0
for a disable request, so the call reports success). -/
theorem configure_zero_disarms (cmd errIn : Nat)
    (h : cmd &&& WD_INTERVAL = 0) :
    rk30_wd_watchdog_fn cmd errIn =
      ([Ev.lock, Ev.write WDOG_CTRL 0xa, Ev.unlock], errIn) := by
  simp only [rk30_wd_watchdog_fn]
  rw [if_neg (by omega)]

/-- Witness for C5: command 256 has all interval-selector bits clear. -/
theorem configure_zero_disarms_witness :
    rk30_wd_watchdog_fn 256 0 =
      ([Ev.lock, Ev.write WDOG_CTRL 0xa, Ev.unlock], 0) :=
  configure_zero_disarms 256 0 (by decide)

/-- C7: once bound, every further attach returns ENXIO, leaves the bound
state unchanged and performs no register access; and an attach that
succeeds (errno 0) is the one that sets the bound state, so at most one
live controller ever exists. -/
theorem attach_second_bind_fails :
    (∀ allocOk, rk30_wd_attach true allocOk = (true, ENXIO, [])) ∧
    (∀ bound allocOk, (rk30_wd_attach bound allocOk).2.1 = 0 →
      (rk30_wd_attach bound allocOk).1 = true) := by
  refine ⟨by decide, by decide⟩

/-- Witness for C7: a second bind with a would-be successful allocation
still fails with ENXIO and touches no register. -/
theorem attach_second_bind_fails_witness :
    rk30_wd_attach true true = (true, ENXIO, []) :=
  attach_second_bind_fails.1 true

/-- C8: forceReset before any successful bind logs the initialization
error, performs zero register writes, and returns normally instead of
entering the busy-wait. -/
theorem reset_unbound_no_writes :
    rk30_wd_watchdog_reset false = ResetOutcome.returned true [] := rfl

/-- C9: forceReset after a successful bind writes exactly the encoded
value of the first table entry (0) to TORR and then the enable pattern
0x13 to CTRL, never writes CRR, takes no lock, and then hangs. -/
theorem reset_bound_writes_min_interval :
    rk30_wd_watchdog_reset true =
      ResetOutcome.hangs [Ev.write WDOG_TORR 0, Ev.write WDOG_CTRL 0x13] ∧
    (resetTrace (rk30_wd_watchdog_reset true)).all
      (fun e => !touchesOff WDOG_CRR e) = true ∧
    (resetTrace (rk30_wd_watchdog_reset true)).all
      (fun e => !isLockEv e) = true := by
  decide

end Rk30Wdog
